import Mathlib

/-!
Shallow embedding of the NASA APOD ETL pipeline
(src/A2/dags/nasa_apod_etl_dag.py) and verification of its
specification claims.

The repository is a single Airflow DAG with six tasks:
extract_data, transform_data, load_to_postgres, load_to_csv,
version_data_with_dvc, commit_to_git, wired as
extract >> transform >> [postgres, csv] >> dvc >> git.
Each Python task function is embedded as a Lean function; the Airflow
scheduler semantics (retries, trigger rules, dependency graph) are
embedded as explicit state functions.
-/

/-- A Python value as it occurs in the APOD JSON dicts: either None or a
string.  The fields the DAG reads from the raw API payload are strings
when present; absence of a key is modelled by `Option` at the use site. -/
inductive PyVal where
  | pyNone : PyVal
  | pyStr (s : String) : PyVal
deriving DecidableEq, Repr

/-- The raw API payload (a Python dict), restricted to the seven keys the
transform task reads.  `Option.none` means the key is absent from the
dict; `some PyVal.pyNone` means the key is present with value None. -/
structure RawRecord where
  date : Option PyVal
  title : Option PyVal
  explanation : Option PyVal
  url : Option PyVal
  hdurl : Option PyVal
  media_type : Option PyVal
  copyright : Option PyVal
deriving DecidableEq, Repr

/-- Python `dict.get(key, default)` on one field: returns the default only when
the key is absent; a key present with value None yields None. -/
def dictGet (v : Option PyVal) (dflt : PyVal) : PyVal :=
  v.getD dflt

/-- Python dict truthiness for the raw payload: `not raw_data` holds when
the dict is empty, i.e. every key is absent. -/
def rawIsEmpty (r : RawRecord) : Bool :=
  r.date == none && r.title == none && r.explanation == none &&
  r.url == none && r.hdurl == none && r.media_type == none &&
  r.copyright == none

/-- The `transformed_data` dict built at lines 122-131 of the DAG:
eight fields, each a Python value. -/
structure TransformedData where
  date : PyVal
  title : PyVal
  explanation : PyVal
  url : PyVal
  hdurl : PyVal
  media_type : PyVal
  copyright : PyVal
  extracted_at : PyVal
deriving DecidableEq, Repr

/-- Field selection with defaults, lines 122-131: `date` uses plain
`raw_data.get('date')` (default None); every other field gets a non-null
string default.  `extracted_at` is the current timestamp, passed in. -/
def transformFields (raw : RawRecord) (now : String) : TransformedData :=
  { date := dictGet raw.date PyVal.pyNone
    title := dictGet raw.title (PyVal.pyStr "N/A")
    explanation := dictGet raw.explanation (PyVal.pyStr "N/A")
    url := dictGet raw.url (PyVal.pyStr "N/A")
    hdurl := dictGet raw.hdurl (PyVal.pyStr "N/A")
    media_type := dictGet raw.media_type (PyVal.pyStr "image")
    copyright := dictGet raw.copyright (PyVal.pyStr "Public Domain")
    extracted_at := PyVal.pyStr now }

/-- pandas `isna` on one of these values: only None is missing; any
string, including the empty string, is not NA. -/
def isna : PyVal → Bool
  | PyVal.pyNone => true
  | PyVal.pyStr _ => false

/-- pandas `isin(['image', 'video'])` on the media_type value; a None
value is in neither, so the membership test is false for it. -/
def mediaTypeOk (v : PyVal) : Bool :=
  v == PyVal.pyStr "image" || v == PyVal.pyStr "video"

/-- The three data-quality assertions at lines 138-140, in order; returns
the message of the first failing assertion, or none when all pass. -/
def qualityChecks (d : TransformedData) : Option String :=
  if isna d.date then some "Date field cannot be null"
  else if isna d.title then some "Title field cannot be null"
  else if !mediaTypeOk d.media_type then some "Invalid media type"
  else none

/-- Errors raised by the transform task: the ValueError at line 116 for a
missing or empty payload, or a failed quality assertion. -/
inductive TransformError where
  | noData (msg : String) : TransformError
  | assertFailed (msg : String) : TransformError
deriving DecidableEq, Repr

/-- The transform task (lines 94-146).  `raw` is the XCom pull result:
none when the upstream returned nothing.  An empty dict is falsy in
Python, so it also triggers the ValueError at line 116. -/
def transform_apod_data (raw : Option RawRecord) (now : String) :
    Except TransformError TransformedData :=
  match raw with
  | none => Except.error (TransformError.noData "No data received from extraction task")
  | some r =>
    if rawIsEmpty r then
      Except.error (TransformError.noData "No data received from extraction task")
    else
      let t := transformFields r now
      match qualityChecks t with
      | some msg => Except.error (TransformError.assertFailed msg)
      | none => Except.ok t

/-- A row as held by the two sinks.  Rows reach the sinks only after the
quality checks, so `date` and `title` are strings; the CSV round trip
serialises every field to a string.  Date strings are ISO `YYYY-MM-DD`,
whose lexicographic order is chronological order. -/
structure ApodRow where
  date : String
  title : String
  explanation : String
  url : String
  hdurl : String
  media_type : String
  copyright : String
  extracted_at : String
deriving DecidableEq, Repr

/-- The descending-date order used by `sort_values('date', ascending=False)`:
row `a` may precede row `b` when the date of `b` is at most the date of
`a`. -/
def dateDesc (a b : ApodRow) : Prop :=
  b.date ≤ a.date

instance : DecidableRel dateDesc := fun a b =>
  inferInstanceAs (Decidable (b.date ≤ a.date))

instance : IsTotal ApodRow dateDesc := ⟨fun a b => le_total b.date a.date⟩

instance : IsTrans ApodRow dateDesc := ⟨fun _ _ _ h h' => le_trans h' h⟩

/-- pandas `df.sort_values('date', ascending=False)`: a comparison sort of the
rows on the date key, newest first.  pandas does not fix the relative
order of rows with equal dates and nothing downstream relies on it, so
any correct comparison sort is a faithful model. -/
def sortByDateDesc (rows : List ApodRow) : List ApodRow :=
  List.insertionSort dateDesc rows

/-- The CSV load task (lines 237-292).  `existing` is the parsed prior
snapshot when the CSV file exists.  Lines 265-281: with a prior snapshot,
drop the rows whose date equals the new date, append the new row, sort by
date descending, write; otherwise write the single-row table. -/
def load_to_csv (existing : Option (List ApodRow)) (data : ApodRow) :
    List ApodRow :=
  match existing with
  | none => [data]
  | some rows =>
      sortByDateDesc ((rows.filter fun r => r.date != data.date) ++ [data])

/-- The PostgreSQL load task (lines 149-234), reduced to the effect of the
upsert statement at lines 186-212 on the `apod_data` table: INSERT the
row, ON CONFLICT (date) DO UPDATE every non-key field from the new row.
The table carries a unique constraint on `date` (required by the ON
CONFLICT clause), so at most one existing row can match; overwriting all
its non-key fields while keeping the key equals replacing the row. -/
def load_to_postgres (table : List ApodRow) (data : ApodRow) :
    List ApodRow :=
  if table.any fun row => row.date == data.date then
    table.map fun row => if row.date == data.date then data else row
  else
    table ++ [data]

/-- The unique-key constraint on the postgres table: no two rows share a
date. -/
def UniqueDates (table : List ApodRow) : Prop :=
  (table.map fun r => r.date).Nodup

/-- The outcome of one request attempt inside the extract task, i.e. of
the body of the try block at lines 71-81.  A transport failure
(`requests.get` raising) and an HTTP error status (`raise_for_status`)
both raise `requests.RequestException`; a body that is not valid JSON
makes `response.json()` raise `requests.exceptions.JSONDecodeError`,
which in requests since 2.27 is also a subclass of
`requests.RequestException` and is therefore caught by the handler at
line 83 just like a transport failure. -/
inductive AttemptOutcome where
  | okData (d : RawRecord) : AttemptOutcome
  | requestError (cause : String) : AttemptOutcome
  | parseError (cause : String) : AttemptOutcome
deriving DecidableEq, Repr

/-- Whether the outcome raises an exception caught by
`except requests.RequestException` (line 83). -/
def caughtByHandler : AttemptOutcome → Bool
  | AttemptOutcome.okData _ => false
  | AttemptOutcome.requestError _ => true
  | AttemptOutcome.parseError _ => true

/-- The cause string carried by a failing outcome. -/
def causeOf : AttemptOutcome → String
  | AttemptOutcome.okData _ => ""
  | AttemptOutcome.requestError c => c
  | AttemptOutcome.parseError c => c

/-- Line 69: `max_retries = 3`. -/
def max_retries : Nat := 3

/-- What one run of the extract task did: its return value or raised
message, how many requests it issued, and the list of backoff sleeps
(in seconds) it performed between attempts. -/
structure ExtractResult where
  result : Except String RawRecord
  requestsIssued : Nat
  waits : List Nat
deriving Repr

/-- The retry loop of lines 70-91.  `env i` is the outcome of attempt `i`
(0-indexed); `attempt` is the current index and `left` the number of
loop iterations remaining (`max_retries - attempt`).  On a caught
exception at the last attempt the task raises the exhaustion message of
line 86; otherwise it sleeps `2 ^ attempt` seconds (line 89) and
retries.  With `max_retries ≥ 1` the loop never falls through, so the
`left = 0` case is unreachable from `extract_apod_data`. -/
def extractAux (env : Nat → AttemptOutcome) :
    Nat → Nat → List Nat → ExtractResult
  | _, 0, waits => ExtractResult.mk (Except.error "unreachable") 0 waits
  | attempt, left + 1, waits =>
    match env attempt with
    | AttemptOutcome.okData d =>
        ExtractResult.mk (Except.ok d) (attempt + 1) waits
    | AttemptOutcome.requestError c =>
        if attempt == max_retries - 1 then
          ExtractResult.mk
            (Except.error
              ("Failed to fetch APOD data after 3 attempts: " ++ c))
            (attempt + 1) waits
        else
          extractAux env (attempt + 1) left (waits ++ [2 ^ attempt])
    | AttemptOutcome.parseError c =>
        if attempt == max_retries - 1 then
          ExtractResult.mk
            (Except.error
              ("Failed to fetch APOD data after 3 attempts: " ++ c))
            (attempt + 1) waits
        else
          extractAux env (attempt + 1) left (waits ++ [2 ^ attempt])

/-- The extract task (lines 41-91) as a function of the environment
giving each attempt an outcome. -/
def extract_apod_data (env : Nat → AttemptOutcome) : ExtractResult :=
  extractAux env 0 max_retries []

/-- Reclassifying a JSON parse failure as a generic request failure with
the same cause; used to state that the extract task treats the two
identically. -/
def reclassify : AttemptOutcome → AttemptOutcome
  | AttemptOutcome.parseError c => AttemptOutcome.requestError c
  | o => o

/-- The six tasks of the DAG (lines 315-452). -/
inductive TaskId where
  | extractData
  | transformData
  | loadPostgres
  | loadCsv
  | versionDvc
  | commitGit
deriving DecidableEq, Repr

/-- All tasks of the DAG. -/
def allTasks : List TaskId :=
  [TaskId.extractData, TaskId.transformData, TaskId.loadPostgres,
   TaskId.loadCsv, TaskId.versionDvc, TaskId.commitGit]

/-- The upstream lists induced by line 460:
`extract_task >> transform_task >> [load_postgres_task, load_csv_task]
 >> dvc_task >> git_task`. -/
def upstream : TaskId → List TaskId
  | TaskId.extractData => []
  | TaskId.transformData => [TaskId.extractData]
  | TaskId.loadPostgres => [TaskId.transformData]
  | TaskId.loadCsv => [TaskId.transformData]
  | TaskId.versionDvc => [TaskId.loadPostgres, TaskId.loadCsv]
  | TaskId.commitGit => [TaskId.versionDvc]

/-- The `default_args` dict of lines 26-35, restricted to the fields with
scheduler meaning. -/
structure DagDefaultArgs where
  owner : String
  depends_on_past : Bool
  email_on_failure : Bool
  email_on_retry : Bool
  retries : Nat
  retry_delay_minutes : Nat
  execution_timeout_minutes : Nat
deriving DecidableEq, Repr

/-- Lines 26-35 verbatim. -/
def default_args : DagDefaultArgs :=
  { owner := "mlops-team"
    depends_on_past := false
    email_on_failure := false
    email_on_retry := false
    retries := 2
    retry_delay_minutes := 5
    execution_timeout_minutes := 30 }

/-- The retry count the scheduler applies to a task: every task in this
DAG inherits `default_args` unchanged (no operator at lines 315-452
overrides `retries`). -/
def taskRetries (_ : TaskId) : Nat := default_args.retries

/-- One Airflow task instance run with a retry budget.  `outcomes n`
tells whether the n-th attempt of the task body succeeds; the scheduler
re-runs a failed attempt while retries remain, regardless of the kind of
exception the body raised (Airflow retries any ordinary exception,
AssertionError included).  Returns (attempts made, final success). -/
def runStageAux (outcomes : Nat → Bool) : Nat → Nat → Nat × Bool
  | attempt, 0 => (attempt + 1, outcomes attempt)
  | attempt, retriesLeft + 1 =>
    if outcomes attempt then (attempt + 1, true)
    else runStageAux outcomes (attempt + 1) retriesLeft

/-- Run one task with `retries` whole-stage retries. -/
def runStage (retries : Nat) (outcomes : Nat → Bool) : Nat × Bool :=
  runStageAux outcomes 0 retries

/-- Terminal state of a task instance within one DAG run.  Airflow marks
a task whose upstream did not all succeed as `upstream_failed`; the
specification calls these tasks skipped, and this model follows the
specification vocabulary. -/
inductive TaskStatus where
  | success
  | failed
  | skipped
deriving DecidableEq, Repr

/-- Here `beh t` is the final outcome of task `t` when it is actually run:
true when some attempt within its retry budget succeeds. -/
def statusExtract (beh : TaskId → Bool) : TaskStatus :=
  if beh TaskId.extractData then TaskStatus.success else TaskStatus.failed

/-- transform_data runs only after extract_data succeeded. -/
def statusTransform (beh : TaskId → Bool) : TaskStatus :=
  if statusExtract beh = TaskStatus.success then
    if beh TaskId.transformData then TaskStatus.success else TaskStatus.failed
  else TaskStatus.skipped

/-- load_to_postgres runs only after transform_data succeeded; it does
not depend on load_to_csv. -/
def statusLoadPostgres (beh : TaskId → Bool) : TaskStatus :=
  if statusTransform beh = TaskStatus.success then
    if beh TaskId.loadPostgres then TaskStatus.success else TaskStatus.failed
  else TaskStatus.skipped

/-- load_to_csv runs only after transform_data succeeded; it does not
depend on load_to_postgres. -/
def statusLoadCsv (beh : TaskId → Bool) : TaskStatus :=
  if statusTransform beh = TaskStatus.success then
    if beh TaskId.loadCsv then TaskStatus.success else TaskStatus.failed
  else TaskStatus.skipped

/-- version_data_with_dvc has both sink writers upstream and the default
`all_success` trigger rule: it runs only when both succeeded. -/
def statusVersionDvc (beh : TaskId → Bool) : TaskStatus :=
  if statusLoadPostgres beh = TaskStatus.success ∧
      statusLoadCsv beh = TaskStatus.success then
    if beh TaskId.versionDvc then TaskStatus.success else TaskStatus.failed
  else TaskStatus.skipped

/-- commit_to_git runs only after version_data_with_dvc succeeded. -/
def statusCommitGit (beh : TaskId → Bool) : TaskStatus :=
  if statusVersionDvc beh = TaskStatus.success then
    if beh TaskId.commitGit then TaskStatus.success else TaskStatus.failed
  else TaskStatus.skipped

/-- The terminal status of each task in the run determined by `beh`. -/
def taskStatus (beh : TaskId → Bool) : TaskId → TaskStatus
  | TaskId.extractData => statusExtract beh
  | TaskId.transformData => statusTransform beh
  | TaskId.loadPostgres => statusLoadPostgres beh
  | TaskId.loadCsv => statusLoadCsv beh
  | TaskId.versionDvc => statusVersionDvc beh
  | TaskId.commitGit => statusCommitGit beh

/-- A DAG run fails unless every task instance finished in success. -/
def runFailed (beh : TaskId → Bool) : Bool :=
  !(allTasks.all fun t => taskStatus beh t == TaskStatus.success)

/-- State threaded through the two versioning tasks.  `csvHash` is the
content of `data/apod_data.csv`; `dvcFile` is the content hash recorded
in `data/apod_data.csv.dvc` (none when the file does not exist yet);
`committedDvcFile` is the `.dvc` content in the most recent git commit;
`staged` is whether the git index holds uncommitted changes; `log` is
the commit log, an append-only durable record. -/
structure VersioningState where
  csvHash : String
  dvcFile : Option String
  committedDvcFile : Option String
  staged : Bool
  log : List String
deriving DecidableEq, Repr

/-- A shell command as a state transformer returning its exit success. -/
def VCmd : Type := VersioningState → Bool × VersioningState

/-- Bash `c1 && c2`: run `c2` only when `c1` exited successfully. -/
def bashAnd (c1 c2 : VCmd) : VCmd := fun s =>
  let r := c1 s
  if r.1 then c2 r.2 else r

/-- Bash `c1 || c2`: run `c2` only when `c1` failed; the effects of the
failed `c1` persist. -/
def bashOr (c1 c2 : VCmd) : VCmd := fun s =>
  let r := c1 s
  if r.1 then r else c2 r.2

/-- Commands `echo ...`, `git config ...`, `ls`, `cat`, `dvc status || true`,
`git status || true`, `git log || true`: succeed without touching the
modelled state. -/
def shellNoop : VCmd := fun s => (true, s)

/-- Command `dvc add data/apod_data.csv`: records the current content hash of the
CSV in the `.dvc` file.  When the CSV is unchanged since the last add,
the `.dvc` file is rewritten with identical content, i.e. a no-op, and
the command still succeeds. -/
def dvcAdd : VCmd := fun s => (true, { s with dvcFile := some s.csvHash })

/-- The version_data_with_dvc task (lines 390-417): the bash chain
`dvc status || true && dvc add data/apod_data.csv && dvc status && ...`,
where every other command is a status/echo/ls/cat no-op. -/
def version_data_with_dvc : VCmd :=
  bashAnd shellNoop
    (bashAnd (bashOr shellNoop shellNoop)
      (bashAnd dvcAdd
        (bashAnd shellNoop (bashAnd shellNoop shellNoop))))

/-- Command `git add data/apod_data.csv.dvc ...`: stages changes exactly when the
working-tree `.dvc` file differs from its last committed content. -/
def gitAdd : VCmd := fun s =>
  (true, { s with staged := decide (s.dvcFile ≠ s.committedDvcFile) })

/-- Command `git commit -m msg`: with staged changes, appends one entry to the
log and succeeds; with nothing staged, exits nonzero and changes
nothing. -/
def gitCommit (msg : String) : VCmd := fun s =>
  if s.staged then
    (true, { s with committedDvcFile := s.dvcFile, staged := false,
                    log := s.log ++ [msg] })
  else (false, s)

/-- The commit_to_git task (lines 420-452): configuration, init, and
status steps (no-ops here, guarded by `|| …` where they may fail), then
`git add … || true`, then `git commit -m … || echo "No changes to
commit"`, then log display.  The `|| echo` after the commit makes a
nothing-to-commit result a success of the chain. -/
def commit_to_git (msg : String) : VCmd :=
  bashAnd shellNoop
    (bashAnd shellNoop
      (bashAnd (bashOr shellNoop shellNoop)
        (bashAnd (bashOr shellNoop shellNoop)
          (bashAnd (bashOr gitAdd shellNoop)
            (bashAnd (bashOr (gitCommit msg) shellNoop)
              (bashAnd (bashOr shellNoop shellNoop) shellNoop))))))

/-- A sample parsed payload used to instantiate extractor runs. -/
def sampleRaw : RawRecord :=
  { date := some (PyVal.pyStr "2025-11-13")
    title := some (PyVal.pyStr "Nebula")
    explanation := some (PyVal.pyStr "A nebula.")
    url := some (PyVal.pyStr "https://example.test/neb.jpg")
    hdurl := some (PyVal.pyStr "https://example.test/neb_hd.jpg")
    media_type := some (PyVal.pyStr "image")
    copyright := none }

/-- Claim C3: for every sequence of transport/HTTP failures, the extract
task issues at most 3 requests, sleeps 2 ^ attempt seconds between a
failed attempt and the next (1 then 2), returns the parsed payload on
the first successful attempt, and after all 3 attempts fail raises the
exhaustion message carrying the last cause. -/
theorem extract_retry_spec :
    (∀ env, (extract_apod_data env).requestsIssued ≤ max_retries) ∧
    (∀ env d, env 0 = AttemptOutcome.okData d →
      extract_apod_data env = ExtractResult.mk (Except.ok d) 1 []) ∧
    (∀ env d c0, env 0 = AttemptOutcome.requestError c0 →
      env 1 = AttemptOutcome.okData d →
      extract_apod_data env = ExtractResult.mk (Except.ok d) 2 [1]) ∧
    (∀ env d c0 c1, env 0 = AttemptOutcome.requestError c0 →
      env 1 = AttemptOutcome.requestError c1 →
      env 2 = AttemptOutcome.okData d →
      extract_apod_data env = ExtractResult.mk (Except.ok d) 3 [1, 2]) ∧
    (∀ env c0 c1 c2, env 0 = AttemptOutcome.requestError c0 →
      env 1 = AttemptOutcome.requestError c1 →
      env 2 = AttemptOutcome.requestError c2 →
      extract_apod_data env =
        ExtractResult.mk
          (Except.error ("Failed to fetch APOD data after 3 attempts: " ++ c2))
          3 [1, 2]) := by
  refine ⟨?_, ?_, ?_, ?_, ?_⟩
  · intro env
    rcases h0 : env 0 with d0 | c0 | c0 <;>
      rcases h1 : env 1 with d1 | c1 | c1 <;>
        rcases h2 : env 2 with d2 | c2 | c2 <;>
          simp [extract_apod_data, extractAux, max_retries, h0, h1, h2]
  · intro env d h0
    simp [extract_apod_data, extractAux, max_retries, h0]
  · intro env d c0 h0 h1
    simp [extract_apod_data, extractAux, max_retries, h0, h1]
  · intro env d c0 c1 h0 h1 h2
    simp [extract_apod_data, extractAux, max_retries, h0, h1, h2]
  · intro env c0 c1 c2 h0 h1 h2
    simp [extract_apod_data, extractAux, max_retries, h0, h1, h2]

/-- Environment for the C3 witness: the first attempt times out, the
second succeeds. -/
def envRetryOnce : Nat → AttemptOutcome := fun n =>
  if n = 0 then AttemptOutcome.requestError "ReadTimeout"
  else AttemptOutcome.okData sampleRaw

/-- Witness for C3 at a concrete environment: one transport failure, then
success on the second request after a 1 second backoff. -/
theorem extract_retry_spec_witness :
    extract_apod_data envRetryOnce = ExtractResult.mk (Except.ok sampleRaw) 2 [1] :=
  extract_retry_spec.2.2.1 envRetryOnce sampleRaw "ReadTimeout" rfl rfl

/-- Environment refuting claim C4: the first response body fails to
parse, the second attempt succeeds. -/
def envParseFail : Nat → AttemptOutcome := fun n =>
  if n = 0 then AttemptOutcome.parseError "Expecting value: line 1 column 1 (char 0)"
  else AttemptOutcome.okData sampleRaw

/-- Counterexample to claim C4.  The claim says a body that fails to
parse makes the extract task fail immediately without retrying.  In the
source, `response.json()` sits inside the try block at lines 71-81 and
its `requests.exceptions.JSONDecodeError` is a subclass of
`requests.RequestException` (requests 2.27 and later), so the handler at
line 83 catches it: here the run after a first-attempt parse failure
issues a second request, sleeps the 1 second backoff, and returns the
payload of the second attempt instead of failing at once. -/
theorem extract_parse_fail_retries_cex :
    (extract_apod_data envParseFail).requestsIssued = 2 ∧
    (extract_apod_data envParseFail).waits = [1] ∧
    (extract_apod_data envParseFail).result = Except.ok sampleRaw :=
  ⟨rfl, rfl, rfl⟩

/-- Claim C4 as amended: the extract task treats a JSON parse failure of
an HTTP-success response exactly like a transport/HTTP failure — it is
caught by the same `except requests.RequestException` handler, backed
off, and retried, and only after the third attempt does the task raise
the exhaustion error.  Formally, reclassifying every parse failure as a
request failure with the same cause leaves the run unchanged. -/
theorem extract_parse_fail_retries :
    ∀ env, extract_apod_data env =
      extract_apod_data (fun n => reclassify (env n)) := by
  intro env
  rcases h0 : env 0 with d0 | c0 | c0 <;>
    rcases h1 : env 1 with d1 | c1 | c1 <;>
      rcases h2 : env 2 with d2 | c2 | c2 <;>
        simp [extract_apod_data, extractAux, max_retries, reclassify, h0, h1, h2]

/-- Counterexample to claim C5.  The claim says the transform stage fails
the run immediately on its first validation failure with no whole-stage
retry attempts.  In the source, `default_args` at lines 26-35 gives
every task `retries: 2`, the transform operator at lines 335-351 does
not override it, and Airflow retries a task on any ordinary exception,
AssertionError from a failed quality check included: a persistently
failing transform body is attempted 3 times, not once. -/
theorem transform_retry_cex :
    taskRetries TaskId.transformData = 2 ∧
    runStage (taskRetries TaskId.transformData) (fun _ => false) = (3, false) :=
  ⟨rfl, rfl⟩

/-- Claim C5 as amended: a transform validation failure is retried like
any other task failure — the transform task inherits `retries: 2` with a
5 minute delay from `default_args`, so a persistently failing
validation is attempted 3 times in all; only after the retry budget is
exhausted is the stage failed, every downstream stage skipped, and the
run failed. -/
theorem transform_retry_spec :
    taskRetries TaskId.transformData = default_args.retries ∧
    default_args.retries = 2 ∧
    default_args.retry_delay_minutes = 5 ∧
    (∀ outcomes : Nat → Bool, (∀ n, outcomes n = false) →
      runStage (taskRetries TaskId.transformData) outcomes = (3, false)) ∧
    (∀ beh : TaskId → Bool, beh TaskId.extractData = true →
      beh TaskId.transformData = false →
      taskStatus beh TaskId.transformData = TaskStatus.failed ∧
      taskStatus beh TaskId.loadPostgres = TaskStatus.skipped ∧
      taskStatus beh TaskId.loadCsv = TaskStatus.skipped ∧
      taskStatus beh TaskId.versionDvc = TaskStatus.skipped ∧
      taskStatus beh TaskId.commitGit = TaskStatus.skipped ∧
      runFailed beh = true) := by
  refine ⟨rfl, rfl, rfl, ?_, ?_⟩
  · intro outcomes h
    simp [runStage, runStageAux, taskRetries, default_args, h]
  · intro beh hE hT
    simp [taskStatus, statusExtract, statusTransform, statusLoadPostgres,
      statusLoadCsv, statusVersionDvc, statusCommitGit, runFailed, allTasks,
      hE, hT]

/-- Run behaviour for the C5 witness: extraction succeeds, the transform
body fails on every attempt. -/
def behTransformFails : TaskId → Bool := fun t =>
  t == TaskId.extractData

/-- Witness for the amended C5 at concrete inputs: an always-failing
transform body is attempted 3 times, and the run with a failing
transform is failed with the versioning chain skipped. -/
theorem transform_retry_spec_witness :
    runStage (taskRetries TaskId.transformData) (fun _ => false) = (3, false) ∧
    taskStatus behTransformFails TaskId.transformData = TaskStatus.failed ∧
    taskStatus behTransformFails TaskId.versionDvc = TaskStatus.skipped ∧
    runFailed behTransformFails = true :=
  ⟨transform_retry_spec.2.2.2.1 (fun _ => false) (fun _ => rfl),
   (transform_retry_spec.2.2.2.2 behTransformFails rfl rfl).1,
   (transform_retry_spec.2.2.2.2 behTransformFails rfl rfl).2.2.2.1,
   (transform_retry_spec.2.2.2.2 behTransformFails rfl rfl).2.2.2.2.2⟩

/-- Claim C7: the versioning chain starts only when both sink writers
succeeded; when either sink writer ends failed, both versioning stages
are skipped and the run is failed; and whenever the transform stage
succeeded, each sink writer is attempted regardless of how its sibling
fares, since neither depends on the other. -/
theorem versioning_join_spec :
    ∀ beh : TaskId → Bool,
      (taskStatus beh TaskId.versionDvc ≠ TaskStatus.skipped →
        taskStatus beh TaskId.loadPostgres = TaskStatus.success ∧
        taskStatus beh TaskId.loadCsv = TaskStatus.success) ∧
      (taskStatus beh TaskId.commitGit ≠ TaskStatus.skipped →
        taskStatus beh TaskId.loadPostgres = TaskStatus.success ∧
        taskStatus beh TaskId.loadCsv = TaskStatus.success) ∧
      ((taskStatus beh TaskId.loadPostgres = TaskStatus.failed ∨
        taskStatus beh TaskId.loadCsv = TaskStatus.failed) →
        taskStatus beh TaskId.versionDvc = TaskStatus.skipped ∧
        taskStatus beh TaskId.commitGit = TaskStatus.skipped ∧
        runFailed beh = true) ∧
      (taskStatus beh TaskId.transformData = TaskStatus.success →
        taskStatus beh TaskId.loadPostgres ≠ TaskStatus.skipped ∧
        taskStatus beh TaskId.loadCsv ≠ TaskStatus.skipped) := by
  intro beh
  cases hE : beh TaskId.extractData <;>
    cases hT : beh TaskId.transformData <;>
      cases hP : beh TaskId.loadPostgres <;>
        cases hC : beh TaskId.loadCsv <;>
          cases hD : beh TaskId.versionDvc <;>
            simp [taskStatus, statusExtract, statusTransform,
              statusLoadPostgres, statusLoadCsv, statusVersionDvc,
              statusCommitGit, runFailed, allTasks, hE, hT, hP, hC, hD]

/-- Run behaviour for the C7 witness: the postgres writer fails after its
retries, everything else would succeed. -/
def behPostgresFails : TaskId → Bool := fun t =>
  !(t == TaskId.loadPostgres)

/-- Witness for C7 at a concrete run: with the postgres sink failed and
the CSV sink successful, both versioning stages are skipped, the run is
failed, and the sibling CSV sink was still attempted (not skipped). -/
theorem versioning_join_spec_witness :
    (taskStatus behPostgresFails TaskId.versionDvc = TaskStatus.skipped ∧
     taskStatus behPostgresFails TaskId.commitGit = TaskStatus.skipped ∧
     runFailed behPostgresFails = true) ∧
    (taskStatus behPostgresFails TaskId.loadPostgres ≠ TaskStatus.skipped ∧
     taskStatus behPostgresFails TaskId.loadCsv ≠ TaskStatus.skipped) :=
  ⟨(versioning_join_spec behPostgresFails).2.2.1 (Or.inl (by decide)),
   (versioning_join_spec behPostgresFails).2.2.2 (by decide)⟩

/-- Claim C8: when versioning step A was a no-op — the CSV artifact is
unchanged, so `dvc add` rewrites the `.dvc` pointer with identical
content — step A still succeeds without changing state, and step B
(commit_to_git) still exits successfully while appending zero entries to
the commit log: the failing `git commit` is absorbed by the
`|| echo "No changes to commit"` guard at line 435. -/
theorem git_noop_commit_spec :
    ∀ (s : VersioningState) (msg : String),
      s.dvcFile = some s.csvHash →
      s.committedDvcFile = s.dvcFile →
      (version_data_with_dvc s).1 = true ∧
      (version_data_with_dvc s).2 = s ∧
      (commit_to_git msg (version_data_with_dvc s).2).1 = true ∧
      (commit_to_git msg (version_data_with_dvc s).2).2.log = s.log := by
  intro s msg h1 h2
  obtain ⟨csvHash, dvcFile, committedDvcFile, staged, log⟩ := s
  simp only at h1 h2
  subst h1
  simp [version_data_with_dvc, commit_to_git, bashAnd, bashOr, shellNoop,
    dvcAdd, gitAdd, gitCommit, h2]

/-- Concrete versioning state for the C8 witness: the `.dvc` pointer
already names the current CSV content and matches the last commit. -/
def vsNoop : VersioningState :=
  { csvHash := "3d1f2c"
    dvcFile := some "3d1f2c"
    committedDvcFile := some "3d1f2c"
    staged := false
    log := ["Update APOD data version - 2025-11-12_00-00-05"] }

/-- Witness for C8 at the concrete state: both versioning tasks succeed
and the commit log is unchanged. -/
theorem git_noop_commit_spec_witness :
    (version_data_with_dvc vsNoop).1 = true ∧
    (version_data_with_dvc vsNoop).2 = vsNoop ∧
    (commit_to_git "Update APOD data version - 2025-11-13_00-00-07"
        (version_data_with_dvc vsNoop).2).1 = true ∧
    (commit_to_git "Update APOD data version - 2025-11-13_00-00-07"
        (version_data_with_dvc vsNoop).2).2.log = vsNoop.log :=
  git_noop_commit_spec vsNoop "Update APOD data version - 2025-11-13_00-00-07"
    rfl rfl

/-- The sort step returns a permutation of its input. -/
theorem sortByDateDesc_perm (l : List ApodRow) : (sortByDateDesc l).Perm l :=
  List.perm_insertionSort dateDesc l

/-- The sort step returns a list sorted by date descending. -/
theorem sortByDateDesc_sorted (l : List ApodRow) :
    List.Sorted dateDesc (sortByDateDesc l) :=
  List.sorted_insertionSort dateDesc l

/-- Claim C1: with no prior snapshot the CSV writer produces the
single-row snapshot; with a prior snapshot it produces exactly the prior
rows minus every row dated like the new record, plus the new record,
sorted by date descending; and for a 3-row prior snapshot with distinct
dates and a new record duplicating one of those dates, the result has
exactly 3 rows, is sorted descending, and the one row at the duplicated
date is the new record. -/
theorem load_to_csv_spec :
    (∀ d, load_to_csv none d = [d]) ∧
    (∀ rows d,
      (load_to_csv (some rows) d).Perm
        ((rows.filter fun r => r.date != d.date) ++ [d]) ∧
      List.Sorted dateDesc (load_to_csv (some rows) d)) ∧
    (∀ r1 r2 r3 d, r1.date ≠ r2.date → r1.date ≠ r3.date → r2.date ≠ r3.date →
      (d.date = r1.date ∨ d.date = r2.date ∨ d.date = r3.date) →
      (load_to_csv (some [r1, r2, r3]) d).length = 3 ∧
      List.Sorted dateDesc (load_to_csv (some [r1, r2, r3]) d) ∧
      d ∈ load_to_csv (some [r1, r2, r3]) d ∧
      (∀ r ∈ load_to_csv (some [r1, r2, r3]) d, r.date = d.date → r = d)) := by
  refine ⟨fun d => rfl, ?_, ?_⟩
  · intro rows d
    exact ⟨sortByDateDesc_perm _, sortByDateDesc_sorted _⟩
  · intro r1 r2 r3 d h12 h13 h23 hd
    have hperm : (load_to_csv (some [r1, r2, r3]) d).Perm
        (([r1, r2, r3].filter fun r => r.date != d.date) ++ [d]) :=
      sortByDateDesc_perm _
    have hfilter : ([r1, r2, r3].filter fun r => r.date != d.date).length = 2 := by
      rcases hd with h | h | h <;> rw [h] <;>
        simp [List.filter_cons, List.filter_nil, bne_iff_ne,
          h12, h13, h23, Ne.symm h12, Ne.symm h13, Ne.symm h23]
    refine ⟨?_, sortByDateDesc_sorted _, ?_, ?_⟩
    · rw [hperm.length_eq, List.length_append, hfilter]
      rfl
    · exact hperm.mem_iff.mpr (List.mem_append_right _ (List.mem_singleton.mpr rfl))
    · intro r hr hrd
      rcases List.mem_append.mp (hperm.mem_iff.mp hr) with hin | hin
      · obtain ⟨-, hne⟩ := List.mem_filter.mp hin
        exact absurd hrd (bne_iff_ne.mp hne)
      · exact List.mem_singleton.mp hin

/-- Prior snapshot row for 2025-11-13, used in the C1 witness. -/
def rowA : ApodRow :=
  { date := "2025-11-13", title := "Nebula", explanation := "A nebula."
    url := "https://example.test/a.jpg", hdurl := "https://example.test/a_hd.jpg"
    media_type := "image", copyright := "Public Domain"
    extracted_at := "2025-11-13T00:00:01" }

/-- Prior snapshot row for 2025-11-12, used in the C1 witness. -/
def rowB : ApodRow :=
  { date := "2025-11-12", title := "Comet", explanation := "A comet."
    url := "https://example.test/b.jpg", hdurl := "https://example.test/b_hd.jpg"
    media_type := "image", copyright := "Public Domain"
    extracted_at := "2025-11-12T00:00:02" }

/-- Prior snapshot row for 2025-11-11, used in the C1 witness. -/
def rowC : ApodRow :=
  { date := "2025-11-11", title := "Galaxy", explanation := "A galaxy."
    url := "https://example.test/c.jpg", hdurl := "https://example.test/c_hd.jpg"
    media_type := "video", copyright := "J. Doe"
    extracted_at := "2025-11-11T00:00:03" }

/-- A fresh record whose date duplicates the 2025-11-12 row but whose
content differs, used in the C1 witness. -/
def rowNew : ApodRow :=
  { date := "2025-11-12", title := "Comet revisited", explanation := "New text."
    url := "https://example.test/n.jpg", hdurl := "https://example.test/n_hd.jpg"
    media_type := "image", copyright := "Public Domain"
    extracted_at := "2025-11-13T01:00:04" }

/-- Witness for C1 at a concrete 3-row snapshot and a duplicate-date
record: the merged snapshot keeps 3 rows, stays sorted descending, and
carries the new content at the duplicated date. -/
theorem load_to_csv_spec_witness :
    (load_to_csv (some [rowA, rowB, rowC]) rowNew).length = 3 ∧
    List.Sorted dateDesc (load_to_csv (some [rowA, rowB, rowC]) rowNew) ∧
    rowNew ∈ load_to_csv (some [rowA, rowB, rowC]) rowNew ∧
    (∀ r ∈ load_to_csv (some [rowA, rowB, rowC]) rowNew,
      r.date = rowNew.date → r = rowNew) :=
  load_to_csv_spec.2.2 rowA rowB rowC rowNew (by decide) (by decide) (by decide)
    (Or.inr (Or.inl rfl))

/-- Overwriting the matching row keeps the date column of the table
pointwise unchanged: the only replaced row already carries the new
date of the new record. -/
theorem upsert_map_date (t : List ApodRow) (d : ApodRow) :
    ((t.map fun row => if row.date == d.date then d else row).map
      fun r => r.date) = t.map fun r => r.date := by
  rw [List.map_map]
  apply List.map_congr_left
  intro a _
  by_cases h : (a.date == d.date) = true
  · simp [Function.comp, h, (beq_iff_eq.mp h).symm]
  · simp [Function.comp, h]

/-- On a table with unique dates containing a row dated like `d`, the
conflict-update branch leaves exactly the row `d` at that date. -/
theorem filter_map_upsert_eq (t : List ApodRow) (d : ApodRow)
    (hmem : (t.any fun row => row.date == d.date) = true)
    (hu : (t.map fun r => r.date).Nodup) :
    ((t.map fun row => if row.date == d.date then d else row).filter
      fun r => r.date == d.date) = [d] := by
  induction t with
  | nil => simp at hmem
  | cons r t ih =>
    rw [List.map_cons, List.nodup_cons] at hu
    obtain ⟨hnotin, hu'⟩ := hu
    by_cases hr : (r.date == d.date) = true
    · have heq : r.date = d.date := beq_iff_eq.mp hr
      rw [List.map_cons, if_pos hr, List.filter_cons_of_pos (by simp)]
      have hnil : ((t.map fun row => if row.date == d.date then d else row).filter
          fun r => r.date == d.date) = [] := by
        rw [List.filter_eq_nil_iff]
        intro a ha
        obtain ⟨b, hb, rfl⟩ := List.mem_map.mp ha
        have hbd : (b.date == d.date) = false := by
          rw [beq_eq_false_iff_ne]
          intro hbe
          exact hnotin (heq ▸ hbe ▸ List.mem_map_of_mem _ hb)
        simp [hbd]
      rw [hnil]
    · have hany : (t.any fun row => row.date == d.date) = true := by
        rcases List.any_eq_true.mp hmem with ⟨x, hx, hpx⟩
        rcases List.mem_cons.mp hx with hx | hx
        · exact absurd (hx ▸ hpx) hr
        · exact List.any_eq_true.mpr ⟨x, hx, hpx⟩
      rw [List.map_cons, if_neg (by simp [hr]), List.filter_cons_of_neg (by simp [hr])]
      exact ih hany hu'

/-- The conflict-update branch touches no row dated differently from the
new record. -/
theorem filter_map_upsert_ne (t : List ApodRow) (d : ApodRow) :
    ((t.map fun row => if row.date == d.date then d else row).filter
      fun r => r.date != d.date) = t.filter fun r => r.date != d.date := by
  induction t with
  | nil => rfl
  | cons r t ih =>
    by_cases hr : (r.date == d.date) = true
    · rw [List.map_cons, if_pos hr,
        List.filter_cons_of_neg (by simp [bne]),
        List.filter_cons_of_neg (by simp [bne, hr]), ih]
    · rw [List.map_cons, if_neg (by simp [hr]),
        List.filter_cons_of_pos (by simp [bne, hr]),
        List.filter_cons_of_pos (by simp [bne, hr]), ih]

/-- The upsert preserves the unique-date constraint. -/
theorem upsert_uniqueDates (t : List ApodRow) (d : ApodRow)
    (hu : UniqueDates t) : UniqueDates (load_to_postgres t d) := by
  unfold UniqueDates at *
  unfold load_to_postgres
  by_cases hmem : (t.any fun row => row.date == d.date) = true
  · rw [if_pos hmem, upsert_map_date]
    exact hu
  · rw [if_neg hmem, List.map_append, List.nodup_append]
    refine ⟨hu, List.nodup_singleton _, ?_⟩
    intro x hx
    obtain ⟨b, hb, rfl⟩ := List.mem_map.mp hx
    have hb' := List.any_eq_false.mp (Bool.not_eq_true _ ▸ hmem) b hb
    simp only [List.map_cons, List.map_nil, List.mem_singleton]
    intro hxd
    exact hb' (beq_iff_eq.mpr hxd)

/-- Claim C2: the keyed-upsert writer inserts when no row carries the new
date and otherwise overwrites the existing row in place; on a table
respecting the unique-date constraint the written date afterwards holds
exactly the new row while every other date is untouched; upserting two
same-date records leaves exactly the second at that date
(last write wins); and upserting two distinct dates into an empty table
leaves the two rows. -/
theorem load_to_postgres_spec :
    (∀ t d, (t.all fun r => r.date != d.date) = true →
      load_to_postgres t d = t ++ [d]) ∧
    (∀ t d, UniqueDates t →
      ((load_to_postgres t d).filter fun r => r.date == d.date) = [d] ∧
      ((load_to_postgres t d).filter fun r => r.date != d.date) =
        (t.filter fun r => r.date != d.date)) ∧
    (∀ t d1 d2, UniqueDates t → d1.date = d2.date →
      ((load_to_postgres (load_to_postgres t d1) d2).filter
        fun r => r.date == d2.date) = [d2]) ∧
    (∀ d1 d2, d1.date ≠ d2.date →
      load_to_postgres (load_to_postgres [] d1) d2 = [d1, d2]) := by
  have key : ∀ t d, UniqueDates t →
      ((load_to_postgres t d).filter fun r => r.date == d.date) = [d] := by
    intro t d hu
    unfold load_to_postgres
    by_cases hmem : (t.any fun row => row.date == d.date) = true
    · rw [if_pos hmem]
      exact filter_map_upsert_eq t d hmem hu
    · rw [if_neg hmem, List.filter_append]
      have h1 : (t.filter fun r => r.date == d.date) = [] :=
        List.filter_eq_nil_iff.mpr fun a ha =>
          List.any_eq_false.mp (Bool.not_eq_true _ ▸ hmem) a ha
      rw [h1, List.nil_append, List.filter_cons_of_pos (by simp),
        List.filter_nil]
  refine ⟨?_, ?_, ?_, ?_⟩
  · intro t d h
    unfold load_to_postgres
    rw [if_neg]
    intro hmem
    rcases List.any_eq_true.mp hmem with ⟨x, hx, hpx⟩
    have := List.all_eq_true.mp h x hx
    simp [bne] at this
    exact absurd (beq_iff_eq.mp hpx) this
  · intro t d hu
    refine ⟨key t d hu, ?_⟩
    unfold load_to_postgres
    by_cases hmem : (t.any fun row => row.date == d.date) = true
    · rw [if_pos hmem]
      exact filter_map_upsert_ne t d
    · rw [if_neg hmem, List.filter_append,
        List.filter_cons_of_neg (by simp [bne]), List.filter_nil,
        List.append_nil]
  · intro t d1 d2 hu _
    exact key (load_to_postgres t d1) d2 (upsert_uniqueDates t d1 hu)
  · intro d1 d2 h
    have h2 : (d1.date == d2.date) = false := beq_eq_false_iff_ne.mpr h
    simp [load_to_postgres, h2]

/-- First upserted row for date 2025-11-10, used in the C2 witness. -/
def pgRow1 : ApodRow :=
  { date := "2025-11-10", title := "Aurora", explanation := "An aurora."
    url := "https://example.test/p1.jpg", hdurl := "https://example.test/p1_hd.jpg"
    media_type := "image", copyright := "Public Domain"
    extracted_at := "2025-11-10T00:00:01" }

/-- Second upserted row for the same date 2025-11-10 with different
content, used in the C2 witness. -/
def pgRow2 : ApodRow :=
  { date := "2025-11-10", title := "Aurora corrected", explanation := "Fixed text."
    url := "https://example.test/p2.jpg", hdurl := "https://example.test/p2_hd.jpg"
    media_type := "image", copyright := "Public Domain"
    extracted_at := "2025-11-10T06:00:02" }

/-- A row for the distinct date 2025-11-09, used in the C2 witness. -/
def pgRow3 : ApodRow :=
  { date := "2025-11-09", title := "Eclipse", explanation := "An eclipse."
    url := "https://example.test/p3.jpg", hdurl := "https://example.test/p3_hd.jpg"
    media_type := "video", copyright := "Public Domain"
    extracted_at := "2025-11-09T00:00:03" }

/-- Witness for C2 at concrete rows: upserting two same-date rows leaves
exactly the second at that date, and upserting two distinct dates into
an empty table leaves both rows. -/
theorem load_to_postgres_spec_witness :
    ((load_to_postgres (load_to_postgres [] pgRow1) pgRow2).filter
      fun r => r.date == pgRow2.date) = [pgRow2] ∧
    load_to_postgres (load_to_postgres [] pgRow1) pgRow3 = [pgRow1, pgRow3] :=
  ⟨load_to_postgres_spec.2.2.1 [] pgRow1 pgRow2 (by simp [UniqueDates]) rfl,
   load_to_postgres_spec.2.2.2 pgRow1 pgRow3 (by decide)⟩

/-- A raw payload whose title is present but the empty string, with a
valid date and media type. -/
def emptyTitleRaw : RawRecord :=
  { date := some (PyVal.pyStr "2025-11-13")
    title := some (PyVal.pyStr "")
    explanation := some (PyVal.pyStr "Text.")
    url := some (PyVal.pyStr "https://example.test/t.jpg")
    hdurl := none
    media_type := some (PyVal.pyStr "image")
    copyright := none }

/-- Counterexample to claim C6.  The claim says validation fails whenever
the title is empty.  The title check at line 139 is a pandas `isna`
test, which rejects only a null value: on this payload whose title is
the empty string, the transform task succeeds and hands the empty title
on, instead of failing. -/
theorem transform_empty_title_cex :
    transform_apod_data (some emptyTitleRaw) "2025-11-13T02:00:00" =
      Except.ok (transformFields emptyTitleRaw "2025-11-13T02:00:00") ∧
    (transformFields emptyTitleRaw "2025-11-13T02:00:00").title =
      PyVal.pyStr "" :=
  ⟨rfl, rfl⟩

/-- Claim C6 as amended: for a non-empty raw payload, the transform task
succeeds exactly when the date value is non-null, the title value is
non-null, and the media type value is the string image or video; the
title check rejects only a null title, so a present-but-empty title
passes, and a missing date (absent key or null value) always fails. -/
theorem transform_validation_spec :
    ∀ raw now, rawIsEmpty raw = false →
      ((∃ t, transform_apod_data (some raw) now = Except.ok t) ↔
        (isna (dictGet raw.date PyVal.pyNone) = false ∧
         isna (dictGet raw.title (PyVal.pyStr "N/A")) = false ∧
         mediaTypeOk (dictGet raw.media_type (PyVal.pyStr "image")) = true)) := by
  intro raw now hne
  constructor
  · rintro ⟨t, ht⟩
    by_cases h1 : isna (dictGet raw.date PyVal.pyNone) = true
    · simp [transform_apod_data, hne, qualityChecks, transformFields, h1] at ht
    · by_cases h2 : isna (dictGet raw.title (PyVal.pyStr "N/A")) = true
      · simp [transform_apod_data, hne, qualityChecks, transformFields,
          h1, h2] at ht
      · by_cases h3 : mediaTypeOk (dictGet raw.media_type (PyVal.pyStr "image")) = true
        · exact ⟨Bool.not_eq_true _ ▸ h1, Bool.not_eq_true _ ▸ h2, h3⟩
        · simp [transform_apod_data, hne, qualityChecks, transformFields,
            h1, h2, h3] at ht
  · rintro ⟨h1, h2, h3⟩
    exact ⟨transformFields raw now,
      by simp [transform_apod_data, hne, qualityChecks, transformFields,
        h1, h2, h3]⟩

/-- Witness for the amended C6 at the concrete empty-title payload: the
characterisation yields success, confirming an empty title is accepted
when date and media type are valid. -/
theorem transform_validation_spec_witness :
    ∃ t, transform_apod_data (some emptyTitleRaw) "2025-11-13T02:30:00" =
      Except.ok t :=
  (transform_validation_spec emptyTitleRaw "2025-11-13T02:30:00" rfl).mpr
    ⟨rfl, rfl, rfl⟩

/-- Claim C9: a raw payload lacking the title key entirely gets the
sentinel N/A substituted by `raw_data.get('title', 'N/A')`, which is
never null, so the null-only title check passes; when the date is a
present string and the media type resolves to image or video, the
transform task succeeds and emits the record with title N/A, which is
what both sink writers then receive. -/
theorem transform_missing_title_spec :
    ∀ raw now, raw.title = none →
      (transformFields raw now).title = PyVal.pyStr "N/A" ∧
      isna (transformFields raw now).title = false ∧
      (∀ s, raw.date = some (PyVal.pyStr s) →
        mediaTypeOk (dictGet raw.media_type (PyVal.pyStr "image")) = true →
        transform_apod_data (some raw) now =
          Except.ok (transformFields raw now)) := by
  intro raw now htitle
  refine ⟨by simp [transformFields, dictGet, htitle],
    by simp [transformFields, dictGet, htitle, isna], ?_⟩
  intro s hdate hmedia
  have hne : rawIsEmpty raw = false := by
    simp [rawIsEmpty, hdate]
  simp only [dictGet] at hmedia
  simp [transform_apod_data, hne, qualityChecks, transformFields, dictGet,
    htitle, hdate, hmedia, isna]

/-- A raw payload with no title key at all, a valid date, and no media
type key (so the image default applies); used in the C9 witness. -/
def noTitleRaw : RawRecord :=
  { date := some (PyVal.pyStr "2025-11-13")
    title := none
    explanation := some (PyVal.pyStr "Text.")
    url := some (PyVal.pyStr "https://example.test/u.jpg")
    hdurl := none
    media_type := none
    copyright := none }

/-- Witness for C9 at the concrete payload: the transform succeeds and
the produced record carries the sentinel title. -/
theorem transform_missing_title_spec_witness :
    transform_apod_data (some noTitleRaw) "2025-11-13T03:00:00" =
      Except.ok (transformFields noTitleRaw "2025-11-13T03:00:00") ∧
    (transformFields noTitleRaw "2025-11-13T03:00:00").title =
      PyVal.pyStr "N/A" :=
  ⟨(transform_missing_title_spec noTitleRaw "2025-11-13T03:00:00" rfl).2.2
      "2025-11-13" rfl rfl,
   (transform_missing_title_spec noTitleRaw "2025-11-13T03:00:00" rfl).1⟩

/-- Claim C10: a raw payload whose date key is absent or null never gets
past the transform task — date is the only field whose `get` carries no
substitute default, so the null date fails the first quality assertion
(or, for a fully empty payload, the earlier no-data ValueError fires);
in particular a non-empty payload without a date fails with exactly the
date assertion, and no record lacking a date can reach either sink
writer. -/
theorem transform_missing_date_spec :
    (∀ now, ∃ e, transform_apod_data none now = Except.error e) ∧
    (∀ raw now, raw.date = none ∨ raw.date = some PyVal.pyNone →
      ∃ e, transform_apod_data (some raw) now = Except.error e) ∧
    (∀ raw now, raw.date = none ∨ raw.date = some PyVal.pyNone →
      rawIsEmpty raw = false →
      transform_apod_data (some raw) now =
        Except.error (TransformError.assertFailed "Date field cannot be null")) := by
  have key : ∀ raw now, raw.date = none ∨ raw.date = some PyVal.pyNone →
      rawIsEmpty raw = false →
      transform_apod_data (some raw) now =
        Except.error (TransformError.assertFailed "Date field cannot be null") := by
    intro raw now hdate hne
    have hna : isna (dictGet raw.date PyVal.pyNone) = true := by
      rcases hdate with h | h <;> simp [dictGet, h, isna]
    simp [transform_apod_data, hne, qualityChecks, transformFields, hna]
  refine ⟨fun now => ⟨_, rfl⟩, ?_, key⟩
  intro raw now hdate
  by_cases hne : rawIsEmpty raw = true
  · exact ⟨TransformError.noData "No data received from extraction task",
      by simp [transform_apod_data, hne]⟩
  · exact ⟨_, key raw now hdate (Bool.not_eq_true _ ▸ hne)⟩

/-- A non-empty raw payload with no date key; used in the C10 witness. -/
def noDateRaw : RawRecord :=
  { date := none
    title := some (PyVal.pyStr "Nebula")
    explanation := some (PyVal.pyStr "Text.")
    url := some (PyVal.pyStr "https://example.test/v.jpg")
    hdurl := none
    media_type := some (PyVal.pyStr "image")
    copyright := none }

/-- Witness for C10 at the concrete payload: a payload lacking a date
fails the transform with the date assertion. -/
theorem transform_missing_date_spec_witness :
    transform_apod_data (some noDateRaw) "2025-11-13T04:00:00" =
      Except.error (TransformError.assertFailed "Date field cannot be null") :=
  transform_missing_date_spec.2.2 noDateRaw "2025-11-13T04:00:00"
    (Or.inl rfl) rfl

/-- Witness for the amended C4 at the concrete parse-failure environment:
the run equals the run of the same environment with the parse failure
reclassified as a transport failure. -/
theorem extract_parse_fail_retries_witness :
    extract_apod_data envParseFail =
      extract_apod_data (fun n => reclassify (envParseFail n)) :=
  extract_parse_fail_retries envParseFail
